import Mathlib

/-!
Shallow embedding of the Content Analysis Tool
(`src/seo_agency/tools/content_analysis_tool.py`): the content-quality
scorer that produces four sub-assessments (readability, heading structure,
keyword usage, completeness) and a composite SEO score in [0,100].

Modelling conventions:
* Python strings are modelled as `List Char` (`String.data`); `str.lower`
  is `Char.toLower` (the contents in scope are ASCII).
* Python floats are modelled by exact rationals `ℚ`.  The quantities the
  tool divides (word counts, sentence counts, keyword counts) are small
  integers, so exact rational comparison agrees with IEEE double
  comparison at every threshold the tool uses.
* Display rounding (`round(x, 1)`, `round(x, 2)`) and the final Markdown
  rendering are presentation-only and are not modelled; the unrounded
  values that drive every branch of the logic are kept.
* Patterns are the concrete regexes of the source, specialised to the
  literal patterns the tool builds: `str.count` is non-overlapping
  left-to-right substring counting, `\b...\b` whole-word search uses the
  `\w = [A-Za-z0-9_]` word-character class, and the `^#{n}\s+(.+)$`
  MULTILINE heading patterns are evaluated per `\n`-separated line.
  Keywords are assumed non-empty (an empty pattern is out of scope).
-/

namespace SeoTool

/-- Whitespace class used by Python `str.split()`, `str.strip()` and the
regex class `\s` (ASCII range). -/
def isPySpace (c : Char) : Bool :=
  c = ' ' || c = '\t' || c = '\n' || c = '\r' || c = '\x0b' || c = '\x0c'

/-- Python `str.lower` on the character list (ASCII). -/
def lowerL (s : List Char) : List Char := s.map Char.toLower

/-- Accumulator pass of `str.split()` (split on whitespace runs, drop
empty pieces); `acc` is the current word reversed. -/
def splitWsAux : List Char → List Char → List (List Char)
  | [], acc => if acc.isEmpty then [] else [acc.reverse]
  | c :: rest, acc =>
    if isPySpace c then
      if acc.isEmpty then splitWsAux rest [] else acc.reverse :: splitWsAux rest []
    else splitWsAux rest (c :: acc)

/-- Python `content.split()`: the whitespace-separated words. -/
def pyWords (s : List Char) : List (List Char) := splitWsAux s []

/-- Python `str.strip()`: drop leading and trailing whitespace. -/
def pyStrip (l : List Char) : List Char :=
  ((l.dropWhile isPySpace).reverse.dropWhile isPySpace).reverse

/-- Chunks of a list cut at every character satisfying `p` (the pieces of
`re.split` over a single-character class, with empty pieces kept, as
Python keeps them before the caller strips and filters). -/
def splitAtPred (p : Char → Bool) : List Char → List (List Char)
  | [] => [[]]
  | c :: rest =>
    let r := splitAtPred p rest
    if p c then [] :: r else (c :: r.headD []) :: r.tail

/-- Fuel-driven scanner of Python `content.count(pat)`: non-overlapping
occurrences, scanning left to right.  Each step consumes one unit of fuel
and at least one character, so fuel equal to the list length is always
enough. -/
def countSubAux (pat : List Char) : Nat → List Char → Nat
  | 0, _ => 0
  | _, [] => 0
  | fuel + 1, c :: rest =>
    if pat.isPrefixOf (c :: rest) ∧ pat ≠ [] then
      1 + countSubAux pat fuel (List.drop (pat.length - 1) rest)
    else countSubAux pat fuel rest

/-- Python `content.count(pat)` for a non-empty literal `pat`.  (An empty
pattern is out of the modelled scope: this returns 0 where Python returns
`len + 1`.) -/
def countSub (pat s : List Char) : Nat := countSubAux pat s.length s

/-- Python `pat in s` (substring containment). -/
def isSubL (pat : List Char) : List Char → Bool
  | [] => pat.isEmpty
  | c :: rest => pat.isPrefixOf (c :: rest) || isSubL pat rest

/-- Regex `\w` (ASCII): letters, digits, underscore. -/
def isWordChar (c : Char) : Bool := c.isAlphanum || c = '_'

/-- Word-character-ness of the head of a list (`false` past the end,
matching the regex treatment of the string boundary as a non-word
position). -/
def headWordness (l : List Char) : Bool :=
  match l with
  | [] => false
  | c :: _ => isWordChar c

/-- Scanner of `re.findall(r'\b' + re.escape(pat) + r'\b', s)` for a
non-empty literal `pat`: non-overlapping whole-word occurrences.  `prevW`
is the word-character-ness of the character before the scan position
(`false` at the start of the string). -/
def countWordAux (pat : List Char) : Nat → Bool → List Char → Nat
  | 0, _, _ => 0
  | _, _, [] => 0
  | fuel + 1, prevW, c :: rest =>
    if pat.isPrefixOf (c :: rest) ∧ pat ≠ [] ∧ prevW ≠ isWordChar c ∧
        isWordChar (pat.getLastD ' ') ≠ headWordness (List.drop (pat.length - 1) rest) then
      1 + countWordAux pat fuel (isWordChar (pat.getLastD ' ')) (List.drop (pat.length - 1) rest)
    else countWordAux pat fuel (isWordChar c) rest

/-- Whole-word, case-sensitive occurrence count (callers pass both sides
already lowered, as the source does). -/
def countWord (pat s : List Char) : Nat := countWordAux pat s.length false s

/-- `_calculate_keyword_density`: whole-word, case-insensitive occurrence
count divided by the whitespace-word count, times 100; 0 for empty
content. -/
def calculateKeywordDensity (content keyword : String) : ℚ :=
  let totalWords := (pyWords content.data).length
  if totalWords = 0 then 0
  else (countWord (lowerL keyword.data) (lowerL content.data) : ℚ) / (totalWords : ℚ) * 100

/-- Per-keyword label of `_check_keyword_usage`, evaluated on the
substring occurrence count and the whole-word density, in the source's
`if`/`elif` order. -/
def keywordAssessment (count : Nat) (density : ℚ) : String :=
  if count = 0 then "Missing"
  else if count = 1 then "Underused"
  else if density > 3 then "Overused (potential keyword stuffing)"
  else if 1/2 ≤ density ∧ density ≤ 5/2 then "Optimal"
  else "Present"

/-- Sentence separator class of `_analyze_readability`: `re.split(r'[.!?]+', …)`. -/
def isSentenceSep (c : Char) : Bool := c = '.' || c = '!' || c = '?'

/-- Sentence pieces of `_analyze_readability` after `strip` and the
non-empty filter.  Splitting at every separator character and dropping
whitespace-only pieces coincides with splitting at separator runs,
because the pieces a run adds are empty. -/
def sentencesOf (content : List Char) : List (List Char) :=
  ((splitAtPred isSentenceSep content).map pyStrip).filter (fun s => !s.isEmpty)

/-- Fuel-driven scanner of Python `content.split(sep)` for a non-empty
literal separator (the tool uses `'\n\n'`): leftmost, non-overlapping. -/
def splitOnSubAux (sep : List Char) : Nat → List Char → List (List Char)
  | 0, _ => [[]]
  | _, [] => [[]]
  | fuel + 1, c :: rest =>
    if sep.isPrefixOf (c :: rest) ∧ sep ≠ [] then
      [] :: splitOnSubAux sep fuel (List.drop (sep.length - 1) rest)
    else
      let r := splitOnSubAux sep fuel rest
      (c :: r.headD []) :: r.tail

/-- Python `content.split(sep)` for a non-empty literal separator. -/
def splitOnSub (sep s : List Char) : List (List Char) := splitOnSubAux sep s.length s

/-- Paragraphs: `content.split('\n\n')`, each piece stripped, empty
pieces dropped (the same computation appears in `_analyze_readability`
and `_analyze_content_completeness`). -/
def paragraphsOf (content : List Char) : List (List Char) :=
  ((splitOnSub ['\n', '\n'] content).map pyStrip).filter (fun p => !p.isEmpty)

/-- Result record of `_analyze_readability`.  The source's invalid branch
returns a dict without `sentences`/`paragraphs` keys; the record stores 0
there (nothing reads them on that branch). -/
structure Readability where
  score : String
  avgWordsPerSentence : ℚ
  sentences : Nat
  paragraphs : Nat
  assessment : String
  recommendations : List String
deriving Repr, DecidableEq

/-- `_analyze_readability`.  The displayed `round(avg, 1)` is
presentation-only; the record keeps the exact average the branches
compare. -/
def analyzeReadability (content : List Char) : Readability :=
  let ts := (sentencesOf content).length
  let tw := (pyWords content).length
  if ts = 0 ∨ tw = 0 then
    { score := "Invalid", avgWordsPerSentence := 0, sentences := 0, paragraphs := 0,
      assessment := "Unable to analyze empty content.",
      recommendations := ["Add meaningful content to analyze."] }
  else
    let avg : ℚ := (tw : ℚ) / (ts : ℚ)
    let score := if avg > 25 then "Difficult" else if avg > 20 then "Moderate" else "Good"
    let assessment :=
      if avg > 25 then "Content may be difficult to read due to long sentences."
      else if avg > 20 then "Content has reasonable readability but could be improved."
      else "Content has good readability with appropriate sentence length."
    let baseRecs : List String :=
      if avg > 25 then
        ["Consider breaking longer sentences into shorter ones.",
         "Aim for an average of 15-20 words per sentence."]
      else if avg > 20 then ["Some sentences could be shortened for better readability."]
      else ["Maintain this level of clarity throughout all content."]
    let paras := paragraphsOf content
    let tp := paras.length
    let longPs := (paras.filter (fun p => 100 < (pyWords p).length)).length
    let recs :=
      if 0 < longPs ∧ 0 < tp ∧ (longPs : ℚ) / (tp : ℚ) > 3/10 then
        baseRecs ++ ["Consider breaking long paragraphs into smaller chunks."]
      else baseRecs
    { score := score, avgWordsPerSentence := avg, sentences := ts, paragraphs := tp,
      assessment := assessment, recommendations := recs }

/-- One `\n`-separated line matches the MULTILINE pattern `^#{n}\s+(.+)$`
exactly when it starts with `n` hash marks followed by a whitespace
character and at least one further character (the run of hashes must stop
at `n`, since position `n` holds whitespace). -/
def headingRestOk (r : List Char) : Bool :=
  match r with
  | [] => false
  | c :: rest => isPySpace c && !rest.isEmpty

/-- Length of the leading run of `#` characters. -/
def hashRun (l : List Char) : Nat := (l.takeWhile (fun c => c = '#')).length

/-- Whether a line is a markdown heading of exactly level `n`. -/
def isHeadingLine (n : Nat) (l : List Char) : Bool :=
  hashRun l = n && headingRestOk (l.drop n)

/-- The `\n`-separated lines of the content (the segments MULTILINE `^…$`
patterns range over). -/
def linesOf (content : List Char) : List (List Char) :=
  splitAtPred (fun c => c = '\n') content

/-- Count of level-`n` headings: `len(re.findall(r'^#{n}\s+(.+)$', content, re.MULTILINE))`. -/
def hCount (n : Nat) (content : List Char) : Nat :=
  ((linesOf content).filter (isHeadingLine n)).length

/-- Result record of `_analyze_headings`. -/
structure HeadingAnalysis where
  h1Count : Nat
  h2Count : Nat
  h3Count : Nat
  h4Count : Nat
  assessment : String
  recommendations : List String
deriving Repr, DecidableEq

/-- The cumulative recommendation list of `_analyze_headings` before the
all-clear replacement: the seven structure rules in source order. -/
def headingRecs (content : List Char) : List String :=
  let h1 := hCount 1 content
  let h2 := hCount 2 content
  let h3 := hCount 3 content
  let h4 := hCount 4 content
  (if h1 = 0 then ["Add an H1 heading (main title) to your content."]
   else if h1 > 1 then ["Use only one H1 heading per page for proper SEO."]
   else []) ++
  (if h2 = 0 ∧ 300 < content.length then ["Break content into sections using H2 headings."] else []) ++
  (if 0 < h2 ∧ h3 = 0 ∧ 1000 < content.length then
    ["Consider using H3 headings for subsections within major sections."] else []) ++
  (if 7 < h2 then
    ["Consider consolidating some sections - too many H2 headings can dilute focus."] else []) ++
  (if 0 < h3 ∧ h2 = 0 then
    ["Fix heading hierarchy: H3 headings should be used after H2 headings, not directly after H1."]
   else []) ++
  (if 0 < h4 ∧ h3 = 0 then
    ["Fix heading hierarchy: H4 headings should be used after H3 headings."] else [])

/-- `_analyze_headings`: the seven cumulative structure rules, then the
all-clear replacement when no rule fired. -/
def analyzeHeadings (content : List Char) : HeadingAnalysis :=
  let h1 := hCount 1 content
  let h2 := hCount 2 content
  let h3 := hCount 3 content
  let h4 := hCount 4 content
  let recs : List String := headingRecs content
  let assessment :=
    "Heading structure analysis:" ++
    (if h1 = 0 then " Missing H1 heading."
     else if h1 > 1 then " Multiple H1 headings detected." else "") ++
    (if h2 = 0 ∧ 300 < content.length then " No section headings (H2) found." else "") ++
    (if 0 < h3 ∧ h2 = 0 then " Improper heading hierarchy." else "") ++
    (if 0 < h4 ∧ h3 = 0 then " Improper heading hierarchy." else "")
  { h1Count := h1, h2Count := h2, h3Count := h3, h4Count := h4,
    assessment := if recs = [] then "Heading structure looks good." else assessment,
    recommendations :=
      if recs = [] then ["Maintain consistent heading hierarchy for future content."] else recs }

/-- Captured group of `^#{1,4}\s+(.+)$` on a matching line: the text
after the hashes with the leading whitespace run removed; when the rest
of the line is all whitespace, greedy backtracking leaves exactly the
last whitespace character to `(.+)`. -/
def headingCapture (l : List Char) : Option (List Char) :=
  let n := hashRun l
  if 1 ≤ n ∧ n ≤ 4 ∧ headingRestOk (l.drop n) = true then
    let r := l.drop n
    let body := r.dropWhile isPySpace
    some (if body.isEmpty then [r.getLastD ' '] else body)
  else none

/-- `_check_keyword_usage`'s `headings_text`: the captured heading texts
(levels 1-4) joined with single spaces, lowered. -/
def headingsText (content : List Char) : List Char :=
  lowerL (List.intercalate [' '] ((linesOf content).filterMap headingCapture))

/-- `_check_keyword_usage`'s `intro`: the first 100 whitespace-separated
words joined with single spaces, lowered. -/
def introOf (content : List Char) : List Char :=
  lowerL (List.intercalate [' '] ((pyWords content).take 100))

/-- Per-keyword record of `_check_keyword_usage`.  The dict's displayed
`round(density, 2)` is presentation-only; the record keeps the exact
density the branches compare.  `inUrl` is the source's hard-coded
`False`. -/
structure KeywordEntry where
  count : Nat
  density : ℚ
  inHeadings : Bool
  inIntro : Bool
  inUrl : Bool
  assessment : String
  recommendations : List String
deriving Repr, DecidableEq

/-- The loop body of `_check_keyword_usage` for one keyword: the reported
occurrence count is the case-insensitive substring count
(`content_lower.count(keyword_lower)`), while the density comes from the
whole-word count of `_calculate_keyword_density`. -/
def keywordEntry (content : String) (keyword : String) : KeywordEntry :=
  let kwL := lowerL keyword.data
  let count := countSub kwL (lowerL content.data)
  let density := calculateKeywordDensity content keyword
  let inH := isSubL kwL (headingsText content.data)
  let inI := isSubL kwL (introOf content.data)
  let labelRecs : List String :=
    if count = 0 then ["Add the keyword '" ++ keyword ++ "' to your content."]
    else if count = 1 then
      ["Use the keyword '" ++ keyword ++ "' more frequently throughout the content."]
    else if density > 3 then
      ["Reduce usage of '" ++ keyword ++ "' to avoid keyword stuffing."]
    else []
  let recs := labelRecs ++
    (if inH = false ∧ 0 < count then ["Include '" ++ keyword ++ "' in at least one heading."] else []) ++
    (if inI = false ∧ 0 < count then ["Include '" ++ keyword ++ "' in the introduction section."] else [])
  { count := count, density := density, inHeadings := inH, inIntro := inI, inUrl := false,
    assessment := keywordAssessment count density, recommendations := recs }

/-- First-occurrence deduplication: the key sequence of a Python dict
filled by `results[keyword] = …` inside a loop over the keyword list. -/
def dedupFirst : List String → List String
  | [] => []
  | k :: ks => k :: (dedupFirst ks).filter (fun x => x ≠ k)

/-- Result record of `_check_keyword_usage`: the per-keyword dict (one
entry per distinct keyword, keyed in first-occurrence order), the overall
summary, and the concatenated per-keyword recommendations (extended once
per loop iteration, so duplicated keywords contribute twice). -/
structure KeywordAnalysis where
  keywords : List (String × KeywordEntry)
  overallAssessment : String
  recommendations : List String
deriving Repr, DecidableEq

/-- `_check_keyword_usage`. -/
def checkKeywordUsage (content : String) (targetKeywords : List String) : KeywordAnalysis :=
  let entries := (dedupFirst targetKeywords).map (fun k => (k, keywordEntry content k))
  let allRecs := (targetKeywords.map (fun k => (keywordEntry content k).recommendations)).flatten
  let optimalCount := (entries.filter (fun e => e.2.assessment = "Optimal")).length
  let missingCount := (entries.filter (fun e => e.2.assessment = "Missing")).length
  let overall :=
    if missingCount = targetKeywords.length then "No target keywords found in content."
    else if optimalCount = targetKeywords.length then "All keywords are used optimally."
    else toString optimalCount ++ " of " ++ toString targetKeywords.length ++ " keywords used optimally."
  { keywords := entries, overallAssessment := overall, recommendations := allRecs }

/-- Result record of `_analyze_content_completeness`. -/
structure Completeness where
  wordCount : Nat
  hasIntro : Bool
  hasConclusion : Bool
  hasBulletPoints : Bool
  hasCta : Bool
  assessment : String
  recommendations : List String
deriving Repr, DecidableEq

/-- The fixed call-to-action phrase set. -/
def ctaPhrases : List String :=
  ["learn more", "sign up", "get started", "contact us", "call now", "subscribe"]

/-- `_analyze_content_completeness`.  `min_word_count` is a Python int
(modelled as `Int`). -/
def analyzeContentCompleteness (content : String) (minWordCount : Int) : Completeness :=
  let wc := (pyWords content.data).length
  let paras := paragraphsOf content.data
  let hasIntro : Bool :=
    match paras with
    | [] => false
    | p :: _ => decide (30 ≤ (pyWords p).length)
  let hasConclusion : Bool :=
    match paras.getLast? with
    | none => false
    | some p => decide (30 ≤ (pyWords p).length)
  let hasBullets : Bool :=
    content.data.contains '•' || content.data.contains '*' || content.data.contains '-'
  let hasCta : Bool := ctaPhrases.any (fun ph => isSubL ph.data (lowerL content.data))
  let recs : List String :=
    (if (wc : Int) < minWordCount then
      ["Increase content length to at least " ++ toString minWordCount ++
        " words (currently " ++ toString wc ++ ")."] else []) ++
    (if hasIntro = false then ["Add a proper introduction section (at least 30 words)."] else []) ++
    (if hasConclusion = false then ["Add a proper conclusion section (at least 30 words)."] else []) ++
    (if hasBullets = false ∧ 500 < wc then
      ["Add bullet points or lists to break up long text sections."] else []) ++
    (if hasCta = false then
      ["Add a clear call-to-action (CTA) to guide readers on next steps."] else [])
  let assessment :=
    "Content structure assessment:" ++
    (if recs = [] then " Content is well-structured and complete."
     else " Content needs improvement (" ++ toString recs.length ++ " issues found).")
  { wordCount := wc, hasIntro := hasIntro, hasConclusion := hasConclusion,
    hasBulletPoints := hasBullets, hasCta := hasCta,
    assessment := assessment, recommendations := recs }

/-- The four sub-assessments of one `_run` invocation. -/
structure Analysis where
  readability : Readability
  headings : HeadingAnalysis
  keywordUsage : KeywordAnalysis
  completeness : Completeness
deriving Repr, DecidableEq

/-- The analysis phase of `_run` (lines computing the four sub-results). -/
def analyzeAll (content : String) (targetKeywords : List String) (minWordCount : Int) : Analysis :=
  { readability := analyzeReadability content.data,
    headings := analyzeHeadings content.data,
    keywordUsage := checkKeywordUsage content targetKeywords,
    completeness := analyzeContentCompleteness content minWordCount }

/-- Readability score component of `_run` (0-25). -/
def readabilityScoreComponent (r : Readability) : Nat :=
  if r.score = "Good" then 25 else if r.score = "Moderate" then 15 else 5

/-- Heading-structure score component of `_run` (0-25). -/
def headingScoreComponent (h : HeadingAnalysis) : Nat :=
  (if h.h1Count = 1 then 10 else 0) +
  (if 0 < h.h2Count then 10 else 0) +
  (if 0 < h.h3Count then 5 else 0)

/-- Number of keywords of the (deduplicated) results dict labelled
`Optimal`, as `_run` recomputes it. -/
def optimalKeywordCount (k : KeywordAnalysis) : Nat :=
  (k.keywords.filter (fun e => e.2.assessment = "Optimal")).length

/-- Keyword-usage score component of `_run` (0-25):
`int((optimal_count / len(target_keywords)) * 25)`.  For non-negative
values Python's truncation toward zero is the floor, and the floating
quotient is exact enough at these magnitudes that the result is the
integer quotient `25 * optimal / total`. -/
def keywordScoreComponent (k : KeywordAnalysis) (totalKeywords : Nat) : Nat :=
  25 * optimalKeywordCount k / totalKeywords

/-- Completeness score component of `_run` (0-25). -/
def completenessScoreComponent (c : Completeness) (minWordCount : Int) : Nat :=
  (if minWordCount ≤ (c.wordCount : Int) then 10 else 0) +
  (if c.hasIntro then 5 else 0) +
  (if c.hasConclusion then 5 else 0) +
  (if c.hasBulletPoints then 3 else 0) +
  (if c.hasCta then 2 else 0)

/-- `total_score` of `_run`: the sum of the four components. -/
def totalScoreOf (content : String) (targetKeywords : List String) (minWordCount : Int) : Nat :=
  let a := analyzeAll content targetKeywords minWordCount
  readabilityScoreComponent a.readability +
  headingScoreComponent a.headings +
  keywordScoreComponent a.keywordUsage targetKeywords.length +
  completenessScoreComponent a.completeness minWordCount

/-- A parsed tool request (`json.loads` result with the three fields the
tool reads, `min_word_count` defaulting to 300 at the parsing stage). -/
structure RunInput where
  content : String
  targetKeywords : List String
  minWordCount : Int
deriving Repr, DecidableEq

/-- Outcome of `_run`: either one of the early-return error strings, or
the computed report (sub-assessments plus total score; the Markdown
rendering of a successful report is presentation-only and not
modelled). -/
inductive RunResult where
  | error (msg : String)
  | success (a : Analysis) (totalScore : Nat)
deriving Repr, DecidableEq

/-- `_run`: `none` models a `tool_input` string that fails `json.loads`
(the `json.JSONDecodeError` handler); otherwise the two validation
checks run in order, then the analysis.  The function is total: every
expected bad input maps to an `error` value. -/
def runTool (input : Option RunInput) : RunResult :=
  match input with
  | none => .error "Error: Invalid JSON input."
  | some i =>
    if i.content = "" then .error "Error: No content provided for analysis."
    else if i.targetKeywords = [] then .error "Error: No target keywords provided for analysis."
    else .success (analyzeAll i.content i.targetKeywords i.minWordCount)
      (totalScoreOf i.content i.targetKeywords i.minWordCount)

end SeoTool

namespace SeoTool

/-- Fixture: a 100-word content containing the keyword `kw` exactly twice
as a whole word. -/
def hundredWords : String := "kw kw" ++ String.join (List.replicate 98 " x")

/-! Helper lemmas about the deduplicated key list and the keyword score. -/

theorem mem_dedupFirst (x : String) : ∀ (l : List String), x ∈ dedupFirst l ↔ x ∈ l
  | [] => by simp [dedupFirst]
  | k :: ks => by
    simp only [dedupFirst, List.mem_cons, List.mem_filter, decide_eq_true_eq]
    constructor
    · rintro (rfl | ⟨h, _⟩)
      · exact Or.inl rfl
      · exact Or.inr ((mem_dedupFirst x ks).1 h)
    · rintro (rfl | h)
      · exact Or.inl rfl
      · by_cases hx : x = k
        · exact Or.inl hx
        · exact Or.inr ⟨(mem_dedupFirst x ks).2 h, hx⟩

theorem nodup_dedupFirst : ∀ (l : List String), (dedupFirst l).Nodup
  | [] => by simp [dedupFirst]
  | k :: ks => by
    simp only [dedupFirst, List.nodup_cons]
    refine ⟨fun hk => ?_, (nodup_dedupFirst ks).filter _⟩
    rcases List.mem_filter.1 hk with ⟨_, hne⟩
    simp at hne

theorem dedupFirst_length_le : ∀ (l : List String), (dedupFirst l).length ≤ l.length
  | [] => Nat.le_refl _
  | k :: ks => by
    simp only [dedupFirst, List.length_cons]
    have h1 := dedupFirst_length_le ks
    have h2 := List.length_filter_le (fun x => x ≠ k) (dedupFirst ks)
    omega

theorem length_filter_ne_lt (a : String) :
    ∀ (l : List String), a ∈ l → (l.filter (fun x => x ≠ a)).length < l.length
  | b :: bs, h => by
    simp only [List.filter_cons, List.length_cons]
    by_cases hb : b = a
    · have h2 := List.length_filter_le (fun x => x ≠ a) bs
      rw [if_neg (by simp [hb])]
      omega
    · rcases List.mem_cons.1 h with rfl | h2
      · exact absurd rfl hb
      · have h3 := length_filter_ne_lt a bs h2
        rw [if_pos (by simp [hb])]
        simp only [List.length_cons]
        omega

theorem dedupFirst_length_lt (l : List String) (h : ¬l.Nodup) :
    (dedupFirst l).length < l.length := by
  induction l with
  | nil => exact absurd List.nodup_nil h
  | cons k ks ih =>
    simp only [dedupFirst, List.length_cons]
    by_cases hk : k ∈ ks
    · have h1 : k ∈ dedupFirst ks := (mem_dedupFirst k ks).2 hk
      have h2 := length_filter_ne_lt k (dedupFirst ks) h1
      have h3 := dedupFirst_length_le ks
      omega
    · have hks : ¬ks.Nodup := fun hn => h (List.nodup_cons.2 ⟨hk, hn⟩)
      have h1 := ih hks
      have h2 := List.length_filter_le (fun x => x ≠ k) (dedupFirst ks)
      omega

theorem mul25_div_le {o n : Nat} (h : o ≤ n) : 25 * o / n ≤ 25 := by
  rcases Nat.eq_zero_or_pos n with hn | hn
  · subst hn
    omega
  · calc 25 * o / n ≤ 25 * n / n := Nat.div_le_div_right (Nat.mul_le_mul_left 25 h)
    _ = 25 * (n / n) := Nat.mul_div_assoc 25 (Nat.dvd_refl n)
    _ = 25 := by rw [Nat.div_self hn]

theorem mul25_div_lt {o n : Nat} (hn : 0 < n) (h : o < n) : 25 * o / n < 25 := by
  refine (Nat.div_lt_iff_lt_mul hn).2 ?_
  calc 25 * o < 25 * n := Nat.mul_lt_mul_of_pos_left h (by norm_num)
  _ = 25 * n := rfl

theorem optimalKeywordCount_le_dedup (content : String) (kws : List String) :
    optimalKeywordCount (checkKeywordUsage content kws) ≤ (dedupFirst kws).length := by
  have := List.length_filter_le (fun (e : String × KeywordEntry) => e.2.assessment = "Optimal")
    ((dedupFirst kws).map (fun k => (k, keywordEntry content k)))
  simpa [optimalKeywordCount, checkKeywordUsage] using this

theorem optimalKeywordCount_le (content : String) (kws : List String) :
    optimalKeywordCount (checkKeywordUsage content kws) ≤ kws.length :=
  (optimalKeywordCount_le_dedup content kws).trans (dedupFirst_length_le kws)

theorem readabilityScoreComponent_le (r : Readability) : readabilityScoreComponent r ≤ 25 := by
  unfold readabilityScoreComponent
  split_ifs <;> norm_num

theorem headingScoreComponent_le (h : HeadingAnalysis) : headingScoreComponent h ≤ 25 := by
  unfold headingScoreComponent
  split_ifs <;> norm_num

theorem completenessScoreComponent_le (c : Completeness) (m : Int) :
    completenessScoreComponent c m ≤ 25 := by
  unfold completenessScoreComponent
  split_ifs <;> norm_num

theorem keywordScoreComponent_le (content : String) (kws : List String) :
    keywordScoreComponent (checkKeywordUsage content kws) kws.length ≤ 25 :=
  mul25_div_le (optimalKeywordCount_le content kws)

/-- C1 counterexample: for content "SEO-driven seos" and keyword "seo"
the per-keyword occurrence count the tool reports is 2 (a case-insensitive
substring count, matching inside "seos"), not the whole-word match count,
which is 1; the claim predicts 1. -/
theorem c1_counterexample :
    (keywordEntry "SEO-driven seos" "seo").count = 2 ∧
    countWord (lowerL "seo".data) (lowerL "SEO-driven seos".data) = 1 ∧
    (keywordEntry "SEO-driven seos" "seo").count ≠
      countWord (lowerL "seo".data) (lowerL "SEO-driven seos".data) :=
  ⟨by decide, by decide, by decide⟩

/-- C1 (amended): for every content and every non-empty keyword, the
reported per-keyword occurrence count equals the number of
case-insensitive, non-overlapping substring occurrences of the keyword in
the content (word boundaries are not enforced); in particular for content
"SEO-driven seos" and keyword "seo" the occurrence count is 2. -/
theorem c1_occurrence_count_is_substring_count :
    (∀ (content keyword : String), keyword ≠ "" →
      (keywordEntry content keyword).count =
        countSub (lowerL keyword.data) (lowerL content.data)) ∧
    (keywordEntry "SEO-driven seos" "seo").count = 2 :=
  ⟨fun _ _ _ => rfl, by decide⟩

/-- C1 witness: the amended statement applied at the concrete content
"SEO-driven seos" and keyword "seo". -/
theorem c1_occurrence_count_is_substring_count_witness :
    (keywordEntry "SEO-driven seos" "seo").count =
      countSub (lowerL "seo".data) (lowerL "SEO-driven seos".data) :=
  c1_occurrence_count_is_substring_count.1 "SEO-driven seos" "seo" (by decide)

/-- C2: for every content string, non-empty keyword list and threshold
(the inputs that pass validation), the composite total score lies in
[0, 100]. -/
theorem c2_total_score_in_range (content : String) (kws : List String) (m : Int)
    (_hc : content ≠ "") (_hk : kws ≠ []) :
    0 ≤ totalScoreOf content kws m ∧ totalScoreOf content kws m ≤ 100 := by
  refine ⟨Nat.zero_le _, ?_⟩
  have h1 := readabilityScoreComponent_le (analyzeReadability content.data)
  have h2 := headingScoreComponent_le (analyzeHeadings content.data)
  have h3 := keywordScoreComponent_le content kws
  have h4 := completenessScoreComponent_le (analyzeContentCompleteness content m) m
  show readabilityScoreComponent (analyzeReadability content.data) +
      headingScoreComponent (analyzeHeadings content.data) +
      keywordScoreComponent (checkKeywordUsage content kws) kws.length +
      completenessScoreComponent (analyzeContentCompleteness content m) m ≤ 100
  omega

/-- C2 witness: the bound at the concrete request
("hello world", ["k"], 300). -/
theorem c2_total_score_in_range_witness :
    0 ≤ totalScoreOf "hello world" ["k"] 300 ∧ totalScoreOf "hello world" ["k"] 300 ≤ 100 :=
  c2_total_score_in_range "hello world" ["k"] 300 (by decide) (by decide)

/-- C3: for every valid request the composite score is the sum of exactly
four components, each in [0, 25]: readability (Good 25 / Moderate 15 /
anything else, i.e. Difficult or Invalid, 5), heading structure (+10 iff
exactly one H1, +10 iff some H2, +5 iff some H3), keyword usage
(`int(optimal / total * 25)`, i.e. the integer quotient `25 * optimal /
total`), and completeness (+10 iff the word count reaches the threshold,
+5 intro, +5 conclusion, +3 bullet points, +2 call to action). -/
theorem c3_score_decomposition (content : String) (kws : List String) (m : Int)
    (_hk : kws ≠ []) :
    totalScoreOf content kws m =
      readabilityScoreComponent (analyzeAll content kws m).readability +
      headingScoreComponent (analyzeAll content kws m).headings +
      keywordScoreComponent (analyzeAll content kws m).keywordUsage kws.length +
      completenessScoreComponent (analyzeAll content kws m).completeness m ∧
    readabilityScoreComponent (analyzeAll content kws m).readability =
      (if (analyzeAll content kws m).readability.score = "Good" then 25
       else if (analyzeAll content kws m).readability.score = "Moderate" then 15 else 5) ∧
    headingScoreComponent (analyzeAll content kws m).headings =
      (if (analyzeAll content kws m).headings.h1Count = 1 then 10 else 0) +
      (if 0 < (analyzeAll content kws m).headings.h2Count then 10 else 0) +
      (if 0 < (analyzeAll content kws m).headings.h3Count then 5 else 0) ∧
    keywordScoreComponent (analyzeAll content kws m).keywordUsage kws.length =
      25 * optimalKeywordCount (analyzeAll content kws m).keywordUsage / kws.length ∧
    completenessScoreComponent (analyzeAll content kws m).completeness m =
      (if m ≤ ((analyzeAll content kws m).completeness.wordCount : Int) then 10 else 0) +
      (if (analyzeAll content kws m).completeness.hasIntro then 5 else 0) +
      (if (analyzeAll content kws m).completeness.hasConclusion then 5 else 0) +
      (if (analyzeAll content kws m).completeness.hasBulletPoints then 3 else 0) +
      (if (analyzeAll content kws m).completeness.hasCta then 2 else 0) ∧
    readabilityScoreComponent (analyzeAll content kws m).readability ≤ 25 ∧
    headingScoreComponent (analyzeAll content kws m).headings ≤ 25 ∧
    keywordScoreComponent (analyzeAll content kws m).keywordUsage kws.length ≤ 25 ∧
    completenessScoreComponent (analyzeAll content kws m).completeness m ≤ 25 :=
  ⟨rfl, rfl, rfl, rfl, rfl,
    readabilityScoreComponent_le _, headingScoreComponent_le _,
    keywordScoreComponent_le content kws, completenessScoreComponent_le _ m⟩

/-- C3 witness: the decomposition at the concrete request
("hello world", ["k"], 300); the first conjunct is extracted. -/
theorem c3_score_decomposition_witness :
    totalScoreOf "hello world" ["k"] 300 =
      readabilityScoreComponent (analyzeAll "hello world" ["k"] 300).readability +
      headingScoreComponent (analyzeAll "hello world" ["k"] 300).headings +
      keywordScoreComponent (analyzeAll "hello world" ["k"] 300).keywordUsage (["k"] : List String).length +
      completenessScoreComponent (analyzeAll "hello world" ["k"] 300).completeness 300 :=
  (c3_score_decomposition "hello world" ["k"] 300 (by decide)).1

/-- C4 counterexample: for content "SEO-driven seos" and keyword "seo"
the density is 50 (1 whole-word match out of 2 words), while the reported
occurrence count is 2, so occurrence_count / word_count * 100 would be
100: the density is not computed from the reported occurrence count. -/
theorem c4_counterexample :
    (keywordEntry "SEO-driven seos" "seo").density = 50 ∧
    (keywordEntry "SEO-driven seos" "seo").count = 2 ∧
    ((keywordEntry "SEO-driven seos" "seo").count : ℚ) /
        ((pyWords "SEO-driven seos".data).length : ℚ) * 100 = 100 ∧
    (keywordEntry "SEO-driven seos" "seo").density ≠
      ((keywordEntry "SEO-driven seos" "seo").count : ℚ) /
        ((pyWords "SEO-driven seos".data).length : ℚ) * 100 := by
  have hw : countWord (lowerL "seo".data) (lowerL "SEO-driven seos".data) = 1 := by decide
  have hl : (pyWords "SEO-driven seos".data).length = 2 := by decide
  have hc : (keywordEntry "SEO-driven seos" "seo").count = 2 := by decide
  have hd : (keywordEntry "SEO-driven seos" "seo").density = 50 := by
    show calculateKeywordDensity "SEO-driven seos" "seo" = 50
    simp only [calculateKeywordDensity, hw, hl]
    norm_num
  refine ⟨hd, hc, ?_, ?_⟩
  · rw [hc, hl]
    norm_num
  · rw [hd, hc, hl]
    norm_num

set_option maxRecDepth 4000 in
/-- C4 (amended): the density is the whole-word (case-insensitive,
boundary-respecting) match count divided by the whitespace-word count,
times 100, and 0 when the word count is 0 — not the reported substring
occurrence count; the 100-word content with 2 whole-word keyword
occurrences still yields exactly 2.0. -/
theorem c4_density_formula :
    (∀ (content keyword : String),
      ((pyWords content.data).length = 0 → calculateKeywordDensity content keyword = 0) ∧
      ((pyWords content.data).length ≠ 0 →
        calculateKeywordDensity content keyword =
          (countWord (lowerL keyword.data) (lowerL content.data) : ℚ) /
            ((pyWords content.data).length : ℚ) * 100)) ∧
    calculateKeywordDensity hundredWords "kw" = 2 := by
  constructor
  · intro content keyword
    constructor
    · intro h
      simp [calculateKeywordDensity, h]
    · intro h
      simp [calculateKeywordDensity, h]
  · have hw : countWord (lowerL "kw".data) (lowerL hundredWords.data) = 2 := by decide
    have hl : (pyWords hundredWords.data).length = 100 := by decide
    simp only [calculateKeywordDensity, hw, hl]
    norm_num

/-- C4 witness: both branches of the amended formula discharged at
concrete inputs (empty content, and "SEO-driven seos"). -/
theorem c4_density_formula_witness :
    calculateKeywordDensity "" "k" = 0 ∧
    calculateKeywordDensity "SEO-driven seos" "seo" =
      (countWord (lowerL "seo".data) (lowerL "SEO-driven seos".data) : ℚ) /
        ((pyWords "SEO-driven seos".data).length : ℚ) * 100 :=
  ⟨(c4_density_formula.1 "" "k").1 (by decide),
   (c4_density_formula.1 "SEO-driven seos" "seo").2 (by decide)⟩

/-- Case analysis of the label if/elif chain. -/
theorem keywordAssessment_spec (c : Nat) (d : ℚ) :
    (c = 0 → keywordAssessment c d = "Missing") ∧
    (c = 1 → keywordAssessment c d = "Underused") ∧
    (2 ≤ c → 3 < d → keywordAssessment c d = "Overused (potential keyword stuffing)") ∧
    (2 ≤ c → ¬3 < d → 1/2 ≤ d ∧ d ≤ 5/2 → keywordAssessment c d = "Optimal") ∧
    (2 ≤ c → ¬3 < d → ¬(1/2 ≤ d ∧ d ≤ 5/2) → keywordAssessment c d = "Present") := by
  refine ⟨fun h0 => ?_, fun h1 => ?_, fun h2 hd => ?_, fun h2 hd ho => ?_, fun h2 hd ho => ?_⟩
  · simp [keywordAssessment, h0]
  · simp [keywordAssessment, h1]
  · have h0 : ¬c = 0 := by omega
    have h1 : ¬c = 1 := by omega
    simp [keywordAssessment, h0, h1, hd]
  · have h0 : ¬c = 0 := by omega
    have h1 : ¬c = 1 := by omega
    simp only [keywordAssessment, if_neg h0, if_neg h1, if_neg hd, if_pos ho]
  · have h0 : ¬c = 0 := by omega
    have h1 : ¬c = 1 := by omega
    simp only [keywordAssessment, if_neg h0, if_neg h1, if_neg hd, if_neg ho]

/-- C5: for every keyword result, the usage label follows the first
matching rule of the priority order: count 0 → Missing; count 1 →
Underused; density above 3.0 → Overused (the source's full label string
is "Overused (potential keyword stuffing)"); density within [0.5, 2.5] →
Optimal; otherwise → Present. -/
theorem c5_label_priority (content keyword : String) :
    ((keywordEntry content keyword).count = 0 →
      (keywordEntry content keyword).assessment = "Missing") ∧
    ((keywordEntry content keyword).count = 1 →
      (keywordEntry content keyword).assessment = "Underused") ∧
    (2 ≤ (keywordEntry content keyword).count → 3 < (keywordEntry content keyword).density →
      (keywordEntry content keyword).assessment = "Overused (potential keyword stuffing)") ∧
    (2 ≤ (keywordEntry content keyword).count → ¬3 < (keywordEntry content keyword).density →
      1/2 ≤ (keywordEntry content keyword).density ∧ (keywordEntry content keyword).density ≤ 5/2 →
      (keywordEntry content keyword).assessment = "Optimal") ∧
    (2 ≤ (keywordEntry content keyword).count → ¬3 < (keywordEntry content keyword).density →
      ¬(1/2 ≤ (keywordEntry content keyword).density ∧ (keywordEntry content keyword).density ≤ 5/2) →
      (keywordEntry content keyword).assessment = "Present") :=
  keywordAssessment_spec (keywordEntry content keyword).count (keywordEntry content keyword).density

/-- C5 witness: content "x k" and keyword "k" have occurrence count 1, so
the label is Underused. -/
theorem c5_label_priority_witness :
    (keywordEntry "x k" "k").assessment = "Underused" :=
  (c5_label_priority "x k" "k").2.1 (by decide)

/-- C6: the readability label is Invalid exactly when the tokenized
sentence count or word count is zero (and the reported average is then 0,
no division performed); otherwise the label is Difficult when the average
words per sentence exceeds 25, Moderate when it exceeds 20 but is at most
25, and Good when it is at most 20. -/
theorem c6_readability_thresholds (content : String) :
    ((analyzeReadability content.data).score = "Invalid" ↔
      (sentencesOf content.data).length = 0 ∨ (pyWords content.data).length = 0) ∧
    ((sentencesOf content.data).length = 0 ∨ (pyWords content.data).length = 0 →
      (analyzeReadability content.data).avgWordsPerSentence = 0) ∧
    ((sentencesOf content.data).length ≠ 0 → (pyWords content.data).length ≠ 0 →
      (analyzeReadability content.data).avgWordsPerSentence =
        ((pyWords content.data).length : ℚ) / ((sentencesOf content.data).length : ℚ) ∧
      (25 < ((pyWords content.data).length : ℚ) / ((sentencesOf content.data).length : ℚ) →
        (analyzeReadability content.data).score = "Difficult") ∧
      (20 < ((pyWords content.data).length : ℚ) / ((sentencesOf content.data).length : ℚ) →
        ((pyWords content.data).length : ℚ) / ((sentencesOf content.data).length : ℚ) ≤ 25 →
        (analyzeReadability content.data).score = "Moderate") ∧
      (((pyWords content.data).length : ℚ) / ((sentencesOf content.data).length : ℚ) ≤ 20 →
        (analyzeReadability content.data).score = "Good")) := by
  by_cases h : (sentencesOf content.data).length = 0 ∨ (pyWords content.data).length = 0
  · have hs : (analyzeReadability content.data).score = "Invalid" := by
      simp only [analyzeReadability, if_pos h]
    have ha : (analyzeReadability content.data).avgWordsPerSentence = 0 := by
      simp only [analyzeReadability, if_pos h]
    exact ⟨⟨fun _ => h, fun _ => hs⟩, fun _ => ha,
      fun h1 h2 => absurd h (by simp [h1, h2])⟩
  · have havg : (analyzeReadability content.data).avgWordsPerSentence =
        ((pyWords content.data).length : ℚ) / ((sentencesOf content.data).length : ℚ) := by
      simp only [analyzeReadability, if_neg h]
    have hsc : (analyzeReadability content.data).score =
        (if 25 < ((pyWords content.data).length : ℚ) / ((sentencesOf content.data).length : ℚ)
          then "Difficult"
          else if 20 < ((pyWords content.data).length : ℚ) / ((sentencesOf content.data).length : ℚ)
            then "Moderate" else "Good") := by
      simp only [analyzeReadability, if_neg h]
    refine ⟨?_, fun hc => absurd hc h, fun h1 h2 => ⟨havg, ?_, ?_, ?_⟩⟩
    · rw [hsc]
      constructor
      · intro hinv
        exfalso
        revert hinv
        split_ifs <;> decide
      · intro hc
        exact absurd hc h
    · intro hgt
      rw [hsc, if_pos hgt]
    · intro hgt hle
      rw [hsc, if_neg (not_lt.2 hle), if_pos hgt]
    · intro hle
      rw [hsc, if_neg (not_lt.2 (hle.trans (by norm_num))), if_neg (not_lt.2 hle)]

/-- C6 witness: content "a. b." has 2 sentences and 2 words, average 1,
hence label Good. -/
theorem c6_readability_thresholds_witness :
    (analyzeReadability "a. b.".data).score = "Good" := by
  have h1 : (pyWords "a. b.".data).length = 2 := by decide
  have h2 : (sentencesOf "a. b.".data).length = 2 := by decide
  refine ((c6_readability_thresholds "a. b.").2.2 (by decide) (by decide)).2.2.2 ?_
  rw [h1, h2]
  norm_num

/-- C7: malformed input and the two validation failures return the
source's error strings; any request with non-empty content and a
non-empty keyword list produces a report (the function is total, so no
exception crosses the boundary). -/
theorem c7_error_handling :
    runTool none = .error "Error: Invalid JSON input." ∧
    (∀ (kws : List String) (m : Int),
      runTool (some ⟨"", kws, m⟩) = .error "Error: No content provided for analysis.") ∧
    (∀ (content : String) (kws : List String) (m : Int), content ≠ "" → kws = [] →
      runTool (some ⟨content, kws, m⟩) =
        .error "Error: No target keywords provided for analysis.") ∧
    (∀ (content : String) (kws : List String) (m : Int), content ≠ "" → kws ≠ [] →
      runTool (some ⟨content, kws, m⟩) =
        .success (analyzeAll content kws m) (totalScoreOf content kws m)) := by
  refine ⟨rfl, fun kws m => rfl, ?_, ?_⟩
  · intro content kws m hc hk
    simp [runTool, hc, hk]
  · intro content kws m hc hk
    simp [runTool, hc, hk]

/-- C7 witness: empty keyword list and a well-formed request, each at a
concrete input. -/
theorem c7_error_handling_witness :
    runTool (some ⟨"x", [], 300⟩) = .error "Error: No target keywords provided for analysis." ∧
    runTool (some ⟨"x", ["k"], 300⟩) =
      .success (analyzeAll "x" ["k"] 300) (totalScoreOf "x" ["k"] 300) :=
  ⟨c7_error_handling.2.2.1 "x" [] 300 (by decide) rfl,
   c7_error_handling.2.2.2 "x" ["k"] 300 (by decide) (by decide)⟩

theorem analyzeHeadings_h2Count (c : List Char) : (analyzeHeadings c).h2Count = hCount 2 c := rfl

theorem analyzeHeadings_h3Count (c : List Char) : (analyzeHeadings c).h3Count = hCount 3 c := rfl

/-- C8: whenever the content has H3 headings but no H2 headings, the
heading sub-assessment emits the hierarchy-violation recommendation; in
particular content "### Sub" yields h3_count 1, h2_count 0 and that
recommendation. -/
theorem c8_heading_hierarchy :
    (∀ (content : String), 0 < (analyzeHeadings content.data).h3Count →
      (analyzeHeadings content.data).h2Count = 0 →
      "Fix heading hierarchy: H3 headings should be used after H2 headings, not directly after H1." ∈
        (analyzeHeadings content.data).recommendations) ∧
    (analyzeHeadings "### Sub".data).h3Count = 1 ∧
    (analyzeHeadings "### Sub".data).h2Count = 0 ∧
    "Fix heading hierarchy: H3 headings should be used after H2 headings, not directly after H1." ∈
      (analyzeHeadings "### Sub".data).recommendations := by
  refine ⟨?_, by decide, by decide, by decide⟩
  intro content h3p h2z
  rw [analyzeHeadings_h3Count] at h3p
  rw [analyzeHeadings_h2Count] at h2z
  show "Fix heading hierarchy: H3 headings should be used after H2 headings, not directly after H1." ∈
    (if headingRecs content.data = []
      then ["Maintain consistent heading hierarchy for future content."]
      else headingRecs content.data)
  by_cases hr : headingRecs content.data = []
  · exfalso
    simp [headingRecs, List.append_eq_nil, h3p, h2z] at hr
  · rw [if_neg hr]
    simp [headingRecs, List.mem_append, h3p, h2z]

/-- C8 witness: the general implication discharged at "### Sub". -/
theorem c8_heading_hierarchy_witness :
    "Fix heading hierarchy: H3 headings should be used after H2 headings, not directly after H1." ∈
      (analyzeHeadings "### Sub".data).recommendations :=
  c8_heading_hierarchy.1 "### Sub" (by decide) (by decide)

/-- C9: for any two positive `min_word_count` values the readability,
heading and keyword sub-assessments and their three score components are
identical; the completeness component does depend on the threshold
(concretely: "hello world" at thresholds 1 and 1000000). -/
theorem c9_min_word_count_frame :
    (∀ (content : String) (kws : List String) (m1 m2 : Int), 0 < m1 → 0 < m2 →
      (analyzeAll content kws m1).readability = (analyzeAll content kws m2).readability ∧
      (analyzeAll content kws m1).headings = (analyzeAll content kws m2).headings ∧
      (analyzeAll content kws m1).keywordUsage = (analyzeAll content kws m2).keywordUsage ∧
      readabilityScoreComponent (analyzeAll content kws m1).readability =
        readabilityScoreComponent (analyzeAll content kws m2).readability ∧
      headingScoreComponent (analyzeAll content kws m1).headings =
        headingScoreComponent (analyzeAll content kws m2).headings ∧
      keywordScoreComponent (analyzeAll content kws m1).keywordUsage kws.length =
        keywordScoreComponent (analyzeAll content kws m2).keywordUsage kws.length) ∧
    completenessScoreComponent (analyzeAll "hello world" ["k"] 1).completeness 1 ≠
      completenessScoreComponent (analyzeAll "hello world" ["k"] 1000000).completeness 1000000 :=
  ⟨fun _ _ _ _ _ _ => ⟨rfl, rfl, rfl, rfl, rfl, rfl⟩, by decide⟩

/-- C9 witness: the frame property discharged at a concrete request with
the two positive thresholds 1 and 1000000. -/
theorem c9_min_word_count_frame_witness :
    (analyzeAll "hello world" ["k"] 1).readability =
      (analyzeAll "hello world" ["k"] 1000000).readability :=
  (c9_min_word_count_frame.1 "hello world" ["k"] 1 1000000 (by decide) (by decide)).1

/-- C10: a duplicated keyword keeps a single per-keyword entry (the dict
keys are the first-occurrence deduplication of the list, without
duplicates, covering exactly the listed keywords), while the summary and
the keyword score divide by the duplicate-counting list length: two
copies of an absent keyword give "0 of 2 keywords used optimally" rather
than the all-missing message, and a list with any duplicate can never
reach the keyword component's maximum 25. -/
theorem c10_duplicate_keywords :
    (∀ (content : String) (kws : List String),
      (checkKeywordUsage content kws).keywords.map Prod.fst = dedupFirst kws ∧
      ((checkKeywordUsage content kws).keywords.map Prod.fst).Nodup ∧
      (∀ k, k ∈ (checkKeywordUsage content kws).keywords.map Prod.fst ↔ k ∈ kws)) ∧
    (checkKeywordUsage "hello world" ["k", "k"]).overallAssessment =
      "0 of 2 keywords used optimally." ∧
    (checkKeywordUsage "hello world" ["k", "k"]).overallAssessment ≠
      "No target keywords found in content." ∧
    (∀ (content : String) (kws : List String), kws ≠ [] → ¬kws.Nodup →
      keywordScoreComponent (checkKeywordUsage content kws) kws.length < 25) := by
  have hmap : ∀ (content : String) (kws : List String),
      (checkKeywordUsage content kws).keywords.map Prod.fst = dedupFirst kws := by
    intro content kws
    simp [checkKeywordUsage, List.map_map, Function.comp_def]
  refine ⟨fun content kws => ⟨hmap content kws, ?_, ?_⟩, by decide, by decide, ?_⟩
  · rw [hmap content kws]
    exact nodup_dedupFirst kws
  · intro k
    rw [hmap content kws]
    exact mem_dedupFirst k kws
  · intro content kws hne hdup
    have hpos : 0 < kws.length := List.length_pos.2 hne
    have hlt : optimalKeywordCount (checkKeywordUsage content kws) < kws.length :=
      lt_of_le_of_lt (optimalKeywordCount_le_dedup content kws) (dedupFirst_length_lt kws hdup)
    exact mul25_div_lt hpos hlt

/-- C10 witness: the never-25 bound discharged at the duplicated list
["k", "k"] with content "hello world". -/
theorem c10_duplicate_keywords_witness :
    keywordScoreComponent (checkKeywordUsage "hello world" ["k", "k"])
      (["k", "k"] : List String).length < 25 :=
  c10_duplicate_keywords.2.2.2 "hello world" ["k", "k"] (by decide) (by decide)

end SeoTool
